import Mathlib

/-!
Shallow embedding of the Markdown lesson-template validator
(`tools/validate_markdown_template.py`, with the AST helpers of
`tools/validation_helpers.py`), and proofs about its checks.

The validator works over a parsed CommonMark document.  The parser itself is
an external black box; the document is therefore modelled by the data the
validator actually inspects: the ordered list of top-level blocks (each with
its type tag and raw text lines) and the list of links found in the document.
Python exceptions are modelled with `Except`; the side-channel `logging`
calls are modelled by returning a list of diagnostics alongside each boolean.
-/

namespace MarkdownTemplate

/-- Python exceptions that the validator's checks can raise. -/
inductive PyErr
| indexError
| valueError
deriving DecidableEq, Repr

/-- One diagnostic record, standing for one `logging.error` / `logging.warning`
call of the source. -/
inductive Diag
| missingHeading (h : String)
| extraHeading (h : String)
| badOrder
| expectedHr
| missingHeaderSections
| unrecognizedLabel (label : String)
| badHeaderField (label : String)
| missingCriticalSections
| missingLinkTarget (dest : String)
| linkTextMismatch (dest : String)
deriving DecidableEq, Repr

/-- A top-level block of the parsed document, carrying exactly what the
validator reads off a CommonMark node: its type tag and its raw text lines
(`node.strings`).  A heading node's first string is its heading text. -/
inductive Block
| hr
| heading (label : String)
| para (strings : List String)
deriving DecidableEq, Repr

/-- `node.strings`: the raw text lines of a block.  A horizontal rule has
none; a heading's text is its single string. -/
def Block.strings : Block → List String
| .hr => []
| .heading label => [label]
| .para ss => ss

/-- The parsed document as the validator sees it: the top-level blocks
(`self.ast.children`) plus the `(destination, display text)` pairs of all
links in the document (the result of `self.ast.find_links` /
`get_link_info`, which the external AST helper extracts by traversal). -/
structure Doc where
  children : List Block
  links : List (String × String)
deriving DecidableEq, Repr

namespace CommonMarkHelper

/-- Modelled from the spec: `isHorizontalRule` is a single type-tag
comparison (the CommonMark adapter module is not among the provided
sources). -/
def is_hr : Block → Bool
| .hr => true
| _ => false

/-- Modelled from the spec: `isHeading` is a single type-tag comparison. -/
def is_heading : Block → Bool
| .heading _ => true
| _ => false

/-- Modelled from the spec: `sectionHeadings` returns the direct-child
headings of the given node, in document order, without recursing into
nested blocks. -/
def get_section_headings (children : List Block) : List Block :=
  children.filter is_heading

end CommonMarkHelper

/-- Split a character list at every occurrence of the separator (the
separators are dropped; `n` separators give `n + 1` pieces).  Structural
stand-in for Python's `str.split` with a one-character separator. -/
def split_char (sep : Char) : List Char → List (List Char)
| [] => [[]]
| c :: rest =>
    if c = sep then [] :: split_char sep rest
    else
      match split_char sep rest with
      | piece :: pieces => (c :: piece) :: pieces
      | [] => [[c]]

/-- Join character-list pieces with the separator between them (inverse of
`split_char`). -/
def intercalate_char (sep : Char) : List (List Char) → List Char
| [] => []
| [piece] => piece
| piece :: pieces => piece ++ sep :: intercalate_char sep pieces

/-- Modelled from the spec: `headingText` strips any trailing CSS-like
annotation of the form `\x7b.classname\x7d` from a heading's inline text
(`vh.strip_attrs` is not among the provided sources).  Text before the
opening brace is kept, with trailing blanks removed. -/
def strip_attrs (s : String) : String :=
  match split_char (Char.ofNat 123) s.data with
  | t :: _ :: _ => (String.mk t).trimRight
  | _ => s

/-- `vh.is_str`: the input is a non-blank string.  (The `isinstance` test is
carried by the type.) -/
def is_str (text : String) : Bool :=
  text.length > 0

/-- The class attributes a `MarkdownValidator` subclass configures:
`HEADINGS`, `WARN_ON_EXTRA_HEADINGS`, and `DOC_HEADERS` (field label to
primitive validator, as an association list). -/
structure ValidatorSpec where
  HEADINGS : List String
  WARN_ON_EXTRA_HEADINGS : Bool
  DOC_HEADERS : List (String × (String → Bool))

namespace MarkdownValidator

open CommonMarkHelper

/-- Lines 136-137 of `_validate_section_heading_order`: the stripped label
of every section heading, in document order
(`[vh.strip_attrs(n.strings[0]) for n in heading_nodes]`). -/
def section_heading_labels (children : List Block) : List String :=
  (get_section_headings children).map (fun n => strip_attrs (n.strings.headD ""))

/-- `MarkdownValidator._validate_section_heading_order` (lines 130-168):
verify that the configured section headings appear, in the expected order.
Inputs are the validator's `WARN_ON_EXTRA_HEADINGS` flag, its `HEADINGS`
list, and the document's top-level blocks. -/
def validate_section_heading_order (warn_on_extra : Bool) (headings : List String)
    (children : List Block) : Bool × List Diag :=
  let heading_labels := section_heading_labels children
  let missing_headings := headings.filter (fun h => !(heading_labels.contains h))
  let extra_headings := heading_labels.filter (fun h => !(headings.contains h))
  let missing_log := missing_headings.map Diag.missingHeading
  let no_extra := if warn_on_extra = true then extra_headings.length == 0 else false
  let extra_log := if warn_on_extra = true then extra_headings.map Diag.extraHeading else []
  let headings_overlap := heading_labels.filter (fun h => headings.contains h)
  let order_bad := missing_headings.length == 0 && !(headings_overlap == headings)
  let valid_order := !order_bad
  let order_log := if order_bad then [Diag.badOrder] else []
  (missing_headings.length == 0 && valid_order && no_extra,
    missing_log ++ extra_log ++ order_log)

/-- The row split of `_validate_one_doc_header_row` (line 93),
`label, content = text.split(":", 1)`: split at the first colon; a row
without a colon makes the tuple unpacking raise `ValueError`. -/
def split_row (text : String) : Except PyErr (String × String) :=
  match split_char ':' text.data with
  | [] => Except.error PyErr.valueError
  | [_] => Except.error PyErr.valueError
  | label :: rest =>
      Except.ok (String.mk label, String.mk (intercalate_char ':' rest))

/-- `MarkdownValidator._validate_one_doc_header_row` (lines 91-105): split a
header row into label and content, require the label to be a key of
`DOC_HEADERS`, and run that label's validation function on the content. -/
def validate_one_doc_header_row (DOC_HEADERS : List (String × (String → Bool)))
    (text : String) : Except PyErr (Bool × List Diag) := do
  let (label, content) ← split_row text
  match DOC_HEADERS.lookup label with
  | none => Except.ok (false, [Diag.unrecognizedLabel label])
  | some validation_function =>
      let validate_header := validation_function content
      Except.ok (validate_header,
        if validate_header then [] else [Diag.badHeaderField label])

/-- `MarkdownValidator._validate_hrs` (lines 72-89): the header section must
be bracketed by horizontal rules at `children[0]` and `children[2]`; an
`IndexError` (document shorter than 3 blocks) is caught there and reported
as `False`.  Each non-rule among the two is reported separately. -/
def validate_hrs (children : List Block) : Bool × List Diag :=
  match children.get? 0, children.get? 2 with
  | some hr0, some hr2 =>
      (is_hr hr0 && is_hr hr2,
        (if is_hr hr0 then [] else [Diag.expectedHr]) ++
          (if is_hr hr2 then [] else [Diag.expectedHr]))
  | _, _ => (false, [Diag.missingHeaderSections])

/-- `MarkdownValidator._validate_doc_headers` (lines 108-128): horizontal
rules around the header block, every header row well formed, exactly as many
rows as required fields, and the section-heading order — all conjoined.  The
access `self.ast.children[1]` raises `IndexError` on a document with fewer
than two blocks, and a row without a colon raises `ValueError`; both
propagate out of this method. -/
def validate_doc_headers (spec : ValidatorSpec) (children : List Block) :
    Except PyErr (Bool × List Diag) := do
  let (has_hrs, hr_log) := validate_hrs children
  let header_node ← match children.get? 1 with
    | some n => Except.ok n
    | none => Except.error PyErr.indexError
  let rows ← header_node.strings.mapM (validate_one_doc_header_row spec.DOC_HEADERS)
  let test_headers := (rows.map Prod.fst).all id
  let row_log := (rows.map Prod.snd).flatten
  let only_headers := header_node.strings.length == spec.DOC_HEADERS.length
  let (valid_order, order_log) :=
    validate_section_heading_order spec.WARN_ON_EXTRA_HEADINGS spec.HEADINGS children
  Except.ok (has_hrs && test_headers && only_headers && valid_order,
    hr_log ++ row_log ++ order_log)

end MarkdownValidator

/-- `sys.maxsize` of CPython on a 64-bit platform, the default `maxc` of
`has_number_children`.  (A CPython collection's length never exceeds it.) -/
def sysMaxsize : Nat := 2 ^ 63 - 1

/-- The filesystem the link check probes, as the validator uses it: a map
from a sibling Markdown filename to `none` (no such file) or to
`some title`, where `title` is the front-matter title that parsing the file
and calling `get_doc_header_title` yields (`none` inside when the linked
document has no title).  `get_doc_header_title` itself is modelled from the
spec: the `title` front-matter field of the linked document, or absent. -/
def FS : Type := String → Option (Option String)

/-- The character class `[\w,\s-]` of the link regex (line 182): word
characters (letters, digits, underscore — ASCII, standing in for Python's
`\w`), comma, whitespace, and hyphen. -/
def is_link_char (c : Char) : Bool :=
  c.isAlphanum || c = '_' || c = ',' || c = ' ' || c = '\t' || c = '\n' ||
    c = '\r' || c = Char.ofNat 11 || c = Char.ofNat 12 || c = '-'

/-- `re.match(r"^[\w,\s-]+\.(htm|html)$", dest)` (line 182): the destination
is a bare local HTML filename — a non-empty run of `[\w,\s-]` characters
(which excludes the dot, so exactly one dot occurs), then `.htm` or
`.html`. -/
def local_html_pattern (dest : String) : Bool :=
  match split_char '.' dest.data with
  | [stem, ext] =>
      (String.mk ext == "htm" || String.mk ext == "html") &&
        stem.length > 0 && stem.all is_link_char
  | _ => false

/-- `os.path.splitext(dest)[0]`: the destination with its final extension
removed (split at the last dot).  For a destination accepted by
`local_html_pattern` the stem is non-empty and dot-free, where this agrees
with Python's handling of leading-dot names. -/
def splitext_root (dest : String) : String :=
  match split_char '.' dest.data with
  | [] => dest
  | [_] => dest
  | parts => String.mk (intercalate_char '.' parts.dropLast)

namespace MarkdownValidator

/-- `MarkdownValidator._validate_one_link` (lines 170-208): a destination
matching the local-HTML pattern must have a sibling Markdown file with the
same stem (else fail); when that file exists, its front-matter title must
equal the link's display text (else fail).  Every other destination passes
with no check. -/
def validate_one_link (fs : FS) (dest : String) (link_text : String) :
    Bool × List Diag :=
  if local_html_pattern dest then
    let expected_md_fn := splitext_root dest ++ "." ++ "md"
    match fs expected_md_fn with
    | none => (false, [Diag.missingLinkTarget dest])
    | some dest_page_title =>
        if !(dest_page_title == some link_text) then
          (false, [Diag.linkTextMismatch dest])
        else (true, [])
  else (true, [])

/-- `MarkdownValidator._validate_links` (lines 210-218): fold
`_validate_one_link` over every link of the document, conjoining the
results.  `find_links` is modelled from the spec (recursive traversal
returning destination and display text of every link), carried as the
`links` component of the document model. -/
def validate_links (fs : FS) (d : Doc) : Bool × List Diag :=
  d.links.foldl
    (fun valid l =>
      let res := validate_one_link fs l.1 l.2
      (valid.1 && res.1, valid.2 ++ res.2))
    (true, [])

/-- `MarkdownValidator._run_tests` (lines 220-230): document headers,
section-heading order, and links, conjoined; an exception from any of them
propagates to `validate`. -/
def run_tests (spec : ValidatorSpec) (fs : FS) (d : Doc) :
    Except PyErr (Bool × List Diag) := do
  let (t_headers, l_headers) ← validate_doc_headers spec d.children
  let (t_order, l_order) :=
    validate_section_heading_order spec.WARN_ON_EXTRA_HEADINGS spec.HEADINGS d.children
  let (t_links, l_links) := validate_links fs d
  Except.ok (t_headers && t_order && t_links, l_headers ++ l_order ++ l_links)

/-- `MarkdownValidator.validate` (lines 232-238): run the tests, catching
`IndexError` ("Document is missing critical sections") and converting it to
`False` with a single error; any other exception propagates to the
caller. -/
def validate (spec : ValidatorSpec) (fs : FS) (d : Doc) :
    Except PyErr (Bool × List Diag) :=
  match run_tests spec fs d with
  | Except.ok r => Except.ok r
  | Except.error PyErr.indexError =>
      Except.ok (false, [Diag.missingCriticalSections])
  | Except.error e => Except.error e

end MarkdownValidator

/-- `InstructorPageValidator` (lines 346-352): headings Legend and Overall,
extra headings not warned about, three required string header fields. -/
def InstructorPageValidator : ValidatorSpec :=
  ⟨["Legend", "Overall"], false,
    [("layout", is_str), ("title", is_str), ("subtitle", is_str)]⟩

/-- `DiscussionPageValidator` (lines 375-382): no required headings (base
default, with the base default `WARN_ON_EXTRA_HEADINGS = True`), three
required string header fields. -/
def DiscussionPageValidator : ValidatorSpec :=
  ⟨[], true,
    [("layout", is_str), ("title", is_str), ("subtitle", is_str)]⟩

/-- `LicensePageValidator._run_tests` (lines 355-372): skip every generic
check and pass exactly when the MD5 hex digest of the document text equals
the one known-good hash.  The digest function (`hashlib.md5`, with the
Python-3 fallback that encodes the text to UTF-8 bytes first) is an external
primitive, taken as a parameter. -/
def license_run_tests (md5_hexdigest : String → String) (markdown : String) : Bool :=
  md5_hexdigest markdown == "258aa6822fa77f7c49c37c3759017891"

/-- A Pandoc AST node as `validation_helpers.PandocAstHelper` reads it: the
type tag `t` and the contents list `c` (`ast_node.get('c', [])`). -/
inductive PNode
| mk (t : String) (c : List PNode)

/-- The node's type tag. -/
def PNode.t : PNode → String
| .mk tag _ => tag

/-- The node's contents list. -/
def PNode.c : PNode → List PNode
| .mk _ contents => contents

/-- A Python value as returned by `PandocAstHelper.is_list`: the source's
`or` expression yields either a boolean or a string. -/
inductive PyVal
| bool (b : Bool)
| str (s : String)
deriving DecidableEq, Repr

/-- Python truthiness of such a value: a boolean is itself, a string is
truthy when non-empty. -/
def PyVal.truthy : PyVal → Bool
| .bool b => b
| .str s => !(s == "")

namespace PandocAstHelper

/-- `PandocAstHelper.has_number_children` (lines 217-225): does the node
have the expected number of children?  `if exact:` is Python truthiness, so
`exact` narrows the bounds only when it is neither `None` nor `0`. -/
def has_number_children (ast_node : PNode) (exact : Option Nat)
    (minc maxc : Nat) : Bool :=
  let bounds :=
    match exact with
    | some e => if e != 0 then (e, e) else (minc, maxc)
    | none => (minc, maxc)
  decide (bounds.1 ≤ ast_node.c.length) && decide (ast_node.c.length ≤ bounds.2)

/-- `PandocAstHelper.is_heading` (lines 228-239), applied as every caller in
these claims applies it, with `heading_level=None`: a single type-tag
comparison against `"Header"`. -/
def is_heading (ast_node : PNode) : Bool :=
  ast_node.t == "Header"

/-- `PandocAstHelper.is_list` (lines 245-247): the source line is
`return ast_node['t'] == "BulletList" or "OrderedList"`, which Python parses
as `(t == "BulletList") or "OrderedList"` — `True` for a BulletList node and
the (truthy) string `"OrderedList"` for every other node. -/
def is_list (ast_node : PNode) : PyVal :=
  if ast_node.t == "BulletList" then PyVal.bool true
  else PyVal.str "OrderedList"

/-- `PandocAstHelper.is_block` (lines 253-255): is the node a BlockQuote? -/
def is_block (ast_node : PNode) : Bool :=
  ast_node.t == "BlockQuote"

/-- `PandocAstHelper.is_box` (lines 257-266): a box is a BlockQuote with at
least two children whose first child is a heading.  Python's `and`
short-circuits, so the first child is only inspected when the node has at
least two children (hence a non-empty contents list). -/
def is_box (ast_node : PNode) : Bool :=
  let has_heading :=
    has_number_children ast_node none 2 sysMaxsize &&
      (match ast_node.c with
       | first :: _ => is_heading first
       | [] => false)
  is_block ast_node && has_heading

end PandocAstHelper

/-- Did the Python call complete without an exception? -/
def is_ok {e a : Type} : Except e a → Bool
| Except.ok _ => true
| Except.error _ => false

/-- The boolean outcome of a check that completed without an exception
(`none` when the check raised). -/
def ok_result : Except PyErr (Bool × List Diag) → Option Bool
| Except.ok r => some r.1
| Except.error _ => none

/-- A header row that `split_row` accepts, i.e. one containing a colon
separator. -/
def row_splits (s : String) : Bool :=
  match MarkdownValidator.split_row s with
  | Except.ok _ => true
  | Except.error _ => false

/-- A header row that splits yields a normal (non-raising) result from
`_validate_one_doc_header_row`. -/
theorem validate_one_doc_header_row_ok (D : List (String × (String → Bool)))
    (s : String) (h : row_splits s = true) :
    ∃ v, MarkdownValidator.validate_one_doc_header_row D s = Except.ok v := by
  unfold MarkdownValidator.validate_one_doc_header_row
  unfold row_splits at h
  cases hs : MarkdownValidator.split_row s with
  | error e => rw [hs] at h; simp at h
  | ok lc =>
    simp only [hs, Except.bind, bind]
    cases D.lookup lc.1 with
    | none => exact ⟨_, rfl⟩
    | some f => exact ⟨_, rfl⟩

/-- When every header row splits, the row map completes normally. -/
theorem mapM_header_rows_ok (D : List (String × (String → Bool))) :
    ∀ (ss : List String), (∀ s ∈ ss, row_splits s = true) →
    ∃ vs, ss.mapM (MarkdownValidator.validate_one_doc_header_row D) = Except.ok vs := by
  intro ss
  induction ss with
  | nil => intro _; exact ⟨[], rfl⟩
  | cons a as ih =>
    intro h
    obtain ⟨v, hv⟩ := validate_one_doc_header_row_ok D a (h a (by simp))
    obtain ⟨vs, hvs⟩ := ih (fun s hs => h s (by simp [hs]))
    refine ⟨v :: vs, ?_⟩
    rw [List.mapM_cons, hv, hvs]
    rfl

/-- When every row of the header block (the block at index 1, if any)
splits, the only exception `_validate_doc_headers` can raise is the
`IndexError` of the `children[1]` access. -/
theorem validate_doc_headers_error_is_index (spec : ValidatorSpec)
    (children : List Block)
    (H : ∀ n ∈ children.get? 1, ∀ s ∈ n.strings, row_splits s = true) :
    ∀ e, MarkdownValidator.validate_doc_headers spec children = Except.error e →
      e = PyErr.indexError := by
  intro e he
  unfold MarkdownValidator.validate_doc_headers at he
  cases hn : children.get? 1 with
  | none =>
    simp only [hn, Except.bind, bind] at he
    exact (Except.error.inj he).symm
  | some n =>
    obtain ⟨vs, hvs⟩ :=
      mapM_header_rows_ok spec.DOC_HEADERS n.strings (H n hn)
    simp only [hn, hvs, Except.bind, bind] at he
    exact Except.noConfusion he

/-- C1.  The claim reads: for every template whose `warnOnExtraHeadings`
flag is false (such as the instructor page validator), extra headings never
affect the pass/fail outcome, and a document containing every required
heading in order passes heading-order validation.  The code does the
opposite: with the flag off, `no_extra` is set to `False` and conjoined into
the result, so `_validate_section_heading_order` returns `False` for every
document whatsoever — including one whose headings match the template
exactly.  This theorem evaluates the embedded code: with
`warn_on_extra = false` the check fails on all inputs. -/
theorem C1_warn_off_heading_order_always_fails :
    ∀ (headings : List String) (children : List Block),
    (MarkdownValidator.validate_section_heading_order false headings children).fst
      = false := by
  intro headings children
  simp [MarkdownValidator.validate_section_heading_order]

/-- C2.  For a template with required headings `[A, B]` (`A ≠ B`) and
`warnOnExtraHeadings` true: a document whose section headings are exactly
`[A, B]` in that order (whatever non-heading content surrounds them) passes
heading-order validation; headings `[B, A]` fail; headings `[A]` alone fail,
with a missing-heading error reported for `B`. -/
theorem C2_heading_order_required_pair (A B : String) (d1 d2 d3 : List Block)
    (hAB : A ≠ B)
    (h1 : MarkdownValidator.section_heading_labels d1 = [A, B])
    (h2 : MarkdownValidator.section_heading_labels d2 = [B, A])
    (h3 : MarkdownValidator.section_heading_labels d3 = [A]) :
    (MarkdownValidator.validate_section_heading_order true [A, B] d1).fst = true ∧
    (MarkdownValidator.validate_section_heading_order true [A, B] d2).fst = false ∧
    (MarkdownValidator.validate_section_heading_order true [A, B] d3).fst = false ∧
    Diag.missingHeading B ∈
      (MarkdownValidator.validate_section_heading_order true [A, B] d3).snd := by
  have hab : (A == B) = false := by simp [hAB]
  have hba : (B == A) = false := by simp [Ne.symm hAB]
  refine ⟨?_, ?_, ?_, ?_⟩
  · simp [MarkdownValidator.validate_section_heading_order, h1,
      List.contains, List.elem, hab, hba, List.filter]
  · simp [MarkdownValidator.validate_section_heading_order, h2,
      List.contains, List.elem, hab, hba, List.filter, hAB]
  · simp [MarkdownValidator.validate_section_heading_order, h3,
      List.contains, List.elem, hab, hba, List.filter]
  · have hba2 : decide (B = A) = false := by simp [Ne.symm hAB]
    simp [MarkdownValidator.validate_section_heading_order, h3,
      List.contains, List.elem, hab, hba, hba2, List.filter]

/-- C2, witnessed at `A = "Topics"`, `B = "Other Resources"` with concrete
documents interleaving non-heading content. -/
theorem C2_heading_order_required_pair_witness :
    (MarkdownValidator.validate_section_heading_order true
      ["Topics", "Other Resources"]
      [Block.hr, Block.para ["intro"], Block.heading "Topics",
        Block.para ["list"], Block.heading "Other Resources"]).fst = true ∧
    (MarkdownValidator.validate_section_heading_order true
      ["Topics", "Other Resources"]
      [Block.heading "Other Resources", Block.heading "Topics"]).fst = false ∧
    (MarkdownValidator.validate_section_heading_order true
      ["Topics", "Other Resources"]
      [Block.heading "Topics"]).fst = false ∧
    Diag.missingHeading "Other Resources" ∈
      (MarkdownValidator.validate_section_heading_order true
        ["Topics", "Other Resources"] [Block.heading "Topics"]).snd :=
  C2_heading_order_required_pair "Topics" "Other Resources" _ _ _
    (by decide) rfl rfl rfl

/-- C3, counterexample to the claim as stated.  `validate()` does not catch
every failure on malformed input: a document whose front-matter block holds
a line without a colon separator makes the header-row unpacking raise
`ValueError`, which `validate` (catching only `IndexError`) propagates to
its caller. -/
theorem C3_validate_raises_counterexample :
    MarkdownValidator.validate DiscussionPageValidator (fun _ => none)
      ⟨[Block.hr, Block.para ["nocolon"], Block.hr], []⟩ =
    Except.error PyErr.valueError := rfl

/-- C3, amended.  `validate()` never raises on documents whose header rows
all contain a colon separator: every structural-access failure there is the
`IndexError` of a too-short document, which `validate` catches and converts
to `False` plus one reported error. -/
theorem C3_validate_catches_index_errors (spec : ValidatorSpec) (fs : FS)
    (d : Doc)
    (H : ∀ n ∈ d.children.get? 1, ∀ s ∈ n.strings, row_splits s = true) :
    is_ok (MarkdownValidator.validate spec fs d) = true := by
  unfold MarkdownValidator.validate MarkdownValidator.run_tests
  cases hd : MarkdownValidator.validate_doc_headers spec d.children with
  | ok p =>
    simp only [hd, Except.bind, bind]
    rfl
  | error e =>
    have := validate_doc_headers_error_is_index spec d.children H e hd
    subst this
    simp only [hd, Except.bind, bind]
    rfl

/-- C3, amended, witnessed on a document whose one header row contains a
colon (here the bracketing rules are absent, so the checks fail, but no
exception escapes `validate`). -/
theorem C3_validate_catches_index_errors_witness :
    is_ok (MarkdownValidator.validate DiscussionPageValidator (fun _ => none)
      ⟨[Block.para ["free text"], Block.para ["layout: lesson"]], []⟩) = true :=
  C3_validate_catches_index_errors DiscussionPageValidator (fun _ => none)
    ⟨[Block.para ["free text"], Block.para ["layout: lesson"]], []⟩
    (by
      intro n hn s hs
      simp [List.get?] at hn
      subst hn
      simp [Block.strings] at hs
      subst hs
      rfl)

/-- C4.  Front-matter round trip on the discussion template (required
fields `layout`, `title`, `subtitle`, each a non-blank string): the
document whose front-matter block holds exactly those fields bracketed by
two horizontal rules validates to true; removing either bracketing rule,
adding one unrecognized field, or omitting one required field each
validates to false. -/
theorem C4_front_matter_round_trip :
    ok_result (MarkdownValidator.validate_doc_headers DiscussionPageValidator
      [Block.hr, Block.para ["layout: lesson", "title: T", "subtitle: S"],
        Block.hr]) = some true ∧
    ok_result (MarkdownValidator.validate_doc_headers DiscussionPageValidator
      [Block.para ["layout: lesson", "title: T", "subtitle: S"],
        Block.hr]) = some false ∧
    ok_result (MarkdownValidator.validate_doc_headers DiscussionPageValidator
      [Block.hr, Block.para ["layout: lesson", "title: T", "subtitle: S"]]) =
      some false ∧
    ok_result (MarkdownValidator.validate_doc_headers DiscussionPageValidator
      [Block.hr,
        Block.para ["layout: lesson", "title: T", "subtitle: S", "extra: x"],
        Block.hr]) = some false ∧
    ok_result (MarkdownValidator.validate_doc_headers DiscussionPageValidator
      [Block.hr, Block.para ["layout: lesson", "title: T"], Block.hr]) =
      some false :=
  ⟨rfl, rfl, rfl, rfl, rfl⟩

/-- The character class of the link pattern exactly as the claim words it:
word, space, or hyphen characters only — without the comma that the
source's regex `[\w,\s-]` also accepts. -/
def spec_link_char (c : Char) : Bool :=
  c.isAlphanum || c = '_' || c = ' ' || c = '\t' || c = '\n' || c = '\r' ||
    c = Char.ofNat 11 || c = Char.ofNat 12 || c = '-'

/-- The local-page classification as the claim (and the spec) word it: a
bare filename of word/space/hyphen characters ending in `.htm` or `.html`.
Stated for comparison against `local_html_pattern`, the source's regex. -/
def spec_link_pattern (dest : String) : Bool :=
  match split_char '.' dest.data with
  | [stem, ext] =>
      (String.mk ext == "htm" || String.mk ext == "html") &&
        stem.length > 0 && stem.all spec_link_char
  | _ => false

/-- C5, counterexample to the claim as stated.  The destination `",a.html"`
is outside the claim's word/space/hyphen class, so per the claim it should
always pass; but the source regex `[\w,\s-]` also accepts the comma, so the
code treats it as a local page reference and fails it when no sibling
`",a.md"` exists. -/
theorem C5_comma_destination_counterexample :
    spec_link_pattern ",a.html" = false ∧
    (MarkdownValidator.validate_one_link (fun _ => none) ",a.html" "x").fst =
      false :=
  ⟨rfl, rfl⟩

/-- C5, amended: the local-page class also admits commas (`[\w,\s-]`).  A
destination outside the class always passes regardless of local files; a
destination in the class must resolve to the sibling Markdown file with the
same stem and `.md` extension, and fails when that file is absent.  The
claim's examples classify as it says: a remote URL and a non-HTML local
name both fall outside the class. -/
theorem C5_link_classification :
    ∀ (fs : FS) (dest text : String),
    (local_html_pattern dest = false →
      (MarkdownValidator.validate_one_link fs dest text).fst = true) ∧
    (local_html_pattern dest = true →
      fs (splitext_root dest ++ "." ++ "md") = none →
        (MarkdownValidator.validate_one_link fs dest text).fst = false) ∧
    local_html_pattern "http://example.com/page.html" = false ∧
    local_html_pattern "notes.txt" = false ∧
    local_html_pattern "page.html" = true := by
  intro fs dest text
  refine ⟨?_, ?_, rfl, rfl, rfl⟩
  · intro h
    simp [MarkdownValidator.validate_one_link, h]
  · intro h hfs
    simp [MarkdownValidator.validate_one_link, h, hfs]

/-- C6.  For a local page reference whose sibling Markdown file exists and
has front-matter title `title`, single-link validation passes if and only
if the link's display text equals `title`; a mismatch yields false. -/
theorem C6_link_text_title_match (fs : FS) (dest text title : String)
    (h : local_html_pattern dest = true)
    (hfs : fs (splitext_root dest ++ "." ++ "md") = some (some title)) :
    ((MarkdownValidator.validate_one_link fs dest text).fst = true ↔
      text = title) := by
  simp only [MarkdownValidator.validate_one_link, h, if_true, hfs]
  rcases eq_or_ne text title with he | he
  · subst he
    simp
  · simp [he, Ne.symm he]

/-- C6, witnessed against a filesystem holding `other.md` with title
"Other Page": the matching link text passes, the wrong text fails. -/
theorem C6_link_text_title_match_witness :
    (MarkdownValidator.validate_one_link
        (fun s => if s == "other.md" then some (some "Other Page") else none)
        "other.html" "Other Page").fst = true ∧
    (MarkdownValidator.validate_one_link
        (fun s => if s == "other.md" then some (some "Other Page") else none)
        "other.html" "Wrong Text").fst = false := by
  constructor
  · exact (C6_link_text_title_match
      (fun s => if s == "other.md" then some (some "Other Page") else none)
      "other.html" "Other Page" "Other Page" (by rfl) (by rfl)).mpr rfl
  · have h := C6_link_text_title_match
      (fun s => if s == "other.md" then some (some "Other Page") else none)
      "other.html" "Wrong Text" "Other Page" (by rfl) (by rfl)
    revert h
    cases hb : (MarkdownValidator.validate_one_link
        (fun s => if s == "other.md" then some (some "Other Page") else none)
        "other.html" "Wrong Text").fst
    · intro _; rfl
    · intro h
      exact absurd (h.mp rfl) (by decide)

/-- C7.  License-page validation is the checksum comparison and nothing
else: for every digest function and document text, the overridden test
suite passes exactly when the digest equals the one fixed known-good hash,
and any text whose digest differs fails. -/
theorem C7_license_checksum_only :
    ∀ (md5_hexdigest : String → String) (markdown : String),
    (license_run_tests md5_hexdigest markdown = true ↔
      md5_hexdigest markdown = "258aa6822fa77f7c49c37c3759017891") ∧
    (md5_hexdigest markdown ≠ "258aa6822fa77f7c49c37c3759017891" →
      license_run_tests md5_hexdigest markdown = false) := by
  intro f m
  constructor
  · simp [license_run_tests]
  · intro h
    simp [license_run_tests, h]

/-- C8.  A node (with a CPython-sized contents list) is a callout box if
and only if it is a BlockQuote, it has at least 2 children, and its first
child is a Heading; in particular a BlockQuote whose only child is the
heading is not a box, and a Heading outside a BlockQuote never is. -/
theorem C8_is_box_characterization (n : PNode)
    (hlen : n.c.length ≤ sysMaxsize) :
    PandocAstHelper.is_box n = true ↔
      n.t = "BlockQuote" ∧ 2 ≤ n.c.length ∧
        ∃ first rest, n.c = first :: rest ∧ first.t = "Header" := by
  cases n with
  | mk tag contents =>
    cases contents with
    | nil =>
      simp [PandocAstHelper.is_box, PandocAstHelper.is_block,
        PandocAstHelper.has_number_children, PandocAstHelper.is_heading,
        PNode.t, PNode.c]
    | cons first rest =>
      simp only [PandocAstHelper.is_box, PandocAstHelper.is_block,
        PandocAstHelper.has_number_children, PandocAstHelper.is_heading,
        PNode.t, PNode.c] at *
      simp only [Bool.and_eq_true, decide_eq_true_eq]
      constructor
      · rintro ⟨htag, ⟨⟨h2, _⟩, hfirst⟩⟩
        exact ⟨by simpa using htag, h2, first, rest, rfl, by simpa using hfirst⟩
      · rintro ⟨htag, h2, f, r, hc, hf⟩
        cases hc
        exact ⟨by simpa using htag, ⟨⟨h2, by simpa using hlen⟩,
          by simpa using hf⟩⟩

/-- C8, witnessed on a two-child BlockQuote whose first child is a
Header. -/
theorem C8_is_box_characterization_witness :
    PandocAstHelper.is_box
        (PNode.mk "BlockQuote" [PNode.mk "Header" [], PNode.mk "Para" []]) =
      true ↔
      (PNode.mk "BlockQuote" [PNode.mk "Header" [], PNode.mk "Para" []]).t =
          "BlockQuote" ∧
        2 ≤ (PNode.mk "BlockQuote"
              [PNode.mk "Header" [], PNode.mk "Para" []]).c.length ∧
        ∃ first rest,
          (PNode.mk "BlockQuote"
              [PNode.mk "Header" [], PNode.mk "Para" []]).c = first :: rest ∧
            first.t = "Header" :=
  C8_is_box_characterization
    (PNode.mk "BlockQuote" [PNode.mk "Header" [], PNode.mk "Para" []])
    (by decide)

/-- C9.  The claim reads: `is_list(node)` is a boolean that is true exactly
for ordered or unordered list nodes.  The source line
`return ast_node['t'] == "BulletList" or "OrderedList"` instead yields the
truthy string "OrderedList" for every non-BulletList node (a paragraph
included), so the predicate never evaluates false; only a BulletList node
gets an actual boolean. -/
theorem C9_is_list_never_false :
    PandocAstHelper.is_list (PNode.mk "Para" []) = PyVal.str "OrderedList" ∧
    (PandocAstHelper.is_list (PNode.mk "Para" [])).truthy = true ∧
    PandocAstHelper.is_list (PNode.mk "OrderedList" []) =
      PyVal.str "OrderedList" ∧
    PandocAstHelper.is_list (PNode.mk "BulletList" []) = PyVal.bool true :=
  ⟨rfl, rfl, rfl, rfl⟩

/-- C10.  Calling the child-count check with `exact=0` constrains nothing:
Python's `if exact:` is false at `0`, so the bounds stay at their defaults
`0 ≤ len(children) ≤ sys.maxsize` and the check returns True for every node
(with a CPython-sized contents list). -/
theorem C10_exact_zero_unconstrained (n : PNode)
    (hlen : n.c.length ≤ sysMaxsize) :
    PandocAstHelper.has_number_children n (some 0) 0 sysMaxsize = true := by
  simp [PandocAstHelper.has_number_children, hlen]

/-- C10, witnessed on a node with three children. -/
theorem C10_exact_zero_unconstrained_witness :
    PandocAstHelper.has_number_children
      (PNode.mk "Para" [PNode.mk "Str" [], PNode.mk "Str" [], PNode.mk "Str" []])
      (some 0) 0 sysMaxsize = true :=
  C10_exact_zero_unconstrained
    (PNode.mk "Para" [PNode.mk "Str" [], PNode.mk "Str" [], PNode.mk "Str" []])
    (by decide)

end MarkdownTemplate
